import Mathlib

set_option maxRecDepth 40000

/-!
Verification of the MTN sheet calculator in `raster/dev/mtn.py`.

The Python module computes, for a geographic point given in decimal degrees,
the sheet of the Spanish National Topographic Map grid (MTN50 / MTN25 / MTN10)
containing it, and resolves the MTN50 column/row code to a legacy sheet number
through a static dictionary.

Python floats are modelled as exact rationals (`ℚ`): every decimal literal of
the source is imported exactly, and every claim settled below truncates values
that are far (≥ 1/30 of a grid cell) from an integer boundary, so the IEEE-754
double rounding of the original (relative error ~1e-16) cannot change any
truncation result; the rational model therefore agrees with the Python float
computation on every input considered here.

Python's `int(float)` truncates toward zero; `int(str)` parses an optional
sign and a nonempty digit run, allowing leading/trailing whitespace only, and
raises `ValueError` otherwise; a missing dictionary key raises `KeyError`
carrying the key.  All of these are modelled explicitly below.
-/

/-- Python `int()` applied to a (rational-modelled) float: truncation toward
zero, i.e. floor for nonnegative values and ceiling for negative ones. -/
def ratTrunc (q : ℚ) : ℤ := if 0 ≤ q then ⌊q⌋ else ⌈q⌉

/-- Result of `MTN.dd_to_dms`: the tuple `(degrees, minutes, seconds,
direction)` returned by the Python function. -/
structure DMS where
  deg : ℤ
  min : ℤ
  sec : ℚ
  dir : Char
deriving DecidableEq, Repr

/-- `MTN.dms_to_dd` (mtn.py lines 234-250): converts degrees, minutes,
seconds and a direction letter to signed decimal degrees.  The Python
defaults are `minutes=0`, `seconds=0`, `direction='W'`; the sum is negated
exactly when the direction is in `['W', 'S']`, with no validation at all. -/
def dms_to_dd (deg : ℚ) (minutes : ℚ := 0) (seconds : ℚ := 0)
    (direction : Char := 'W') : ℚ :=
  (deg + minutes / 60 + seconds / (60 * 60)) *
    (if direction = 'W' ∨ direction = 'S' then -1 else 1)

/-- Python `str.lower()`, per-character lowering (the mode strings compared
against are plain ASCII, for which this is exact). -/
def pyLower (s : String) : String := String.mk (s.data.map Char.toLower)

/-- `MTN.dd_to_dms` (mtn.py lines 267-291): converts signed decimal degrees
to `(degrees, minutes, seconds, direction)`.  The sign is `1 if deg > 0 else
-1`; `d = int(deg)` truncates toward zero; `mode` selects N/S (for `'lat'`)
or E/W (otherwise), compared after lowercasing. -/
def dd_to_dms (deg : ℚ) (mode : String := "lat") : DMS :=
  let sign : ℤ := if deg > 0 then 1 else -1
  let d : ℤ := ratTrunc deg
  let md : ℚ := |deg - (d : ℚ)| * 60
  let m : ℤ := ratTrunc md
  let sd : ℚ := (md - (m : ℚ)) * 60
  let direction : Char :=
    if pyLower mode = "lat" then (if sign > 0 then 'N' else 'S')
    else (if sign > 0 then 'E' else 'W')
  ⟨|d|, m, sd, direction⟩

/-- `MTN.origin.lon` (mtn.py line 107): longitude of the MTN grid origin. -/
def origin_lon : ℚ := -9.854166666666666

/-- `MTN.origin.lat` (mtn.py line 108): latitude of the MTN grid origin. -/
def origin_lat : ℚ := 44.0

/-- `MTN.mtn_from_ccff` (mtn.py lines 111-231): the static map from MTN50
column/row code to legacy sheet number, transcribed verbatim as an
association list in the source's key order. -/
def mtn_from_ccff : List (ℤ × ℤ) := [
(602, 1), (2707, 117), (811, 227), (1014, 337), (3517, 447), (2122, 561), (4026, 672), (1831, 784),
(1136, 897), (1941, 1009), (702, 2), (2807, 118), (911, 228), (1114, 338), (3617, 448), (2222,
562), (4326, 673), (1931, 785), (1236, 898), (2041, 1010), (802, 3), (308, 119), (1011, 229),
(1214, 339), (1018, 449), (2322, 563), (727, 674), (2031, 786), (1336, 899), (2141, 1011), (503,
6), (408, 120), (1111, 230), (1314, 340), (1118, 450), (2422, 564), (827, 675), (2131, 787),
(1436, 900), (2241, 1012), (603, 7), (508, 121), (1211, 231), (1414, 341), (1218, 451), (2522,
565), (927, 676), (2231, 788), (1536, 901), (2341, 1013), (703, 8), (608, 122), (1311, 232),
(1514, 342), (1318, 452), (2622, 566), (1027, 677), (2331, 789), (1636, 902), (2441, 1014), (803,
9), (708, 123), (1411, 233), (1614, 343), (1418, 453), (2722, 567), (1127, 678), (2431, 790),
(1736, 903), (2541, 1015), (903, 10), (808, 124), (1511, 234), (1714, 344), (1518, 454), (2822,
568), (1227, 679), (2531, 791), (1836, 904), (942, 1016), (1003, 11), (908, 125), (1611, 235),
(1814, 345), (1618, 455), (2922, 569), (1327, 680), (2631, 792), (1936, 905), (1042, 1017), (1103,
12), (1008, 126), (1711, 236), (1914, 346), (1718, 456), (3022, 570), (1427, 681), (2731, 793),
(2036, 906), (1142, 1018), (1203, 13), (1108, 127), (1811, 237), (2014, 347), (1818, 457), (3122,
571), (1527, 682), (2831, 794), (2136, 907), (1242, 1019), (1303, 14), (1208, 128), (1911, 238),
(2114, 348), (1918, 458), (923, 572), (1627, 683), (2931, 795), (2236, 908), (1342, 1020), (1403,
15), (1308, 129), (2011, 239), (2214, 349), (2018, 459), (1023, 573), (1727, 684), (3031, 796),
(2336, 909), (1442, 1021), (1903, 18), (1408, 130), (2111, 240), (2314, 350), (2118, 460), (1123,
574), (1827, 685), (3431, 798), (2436, 910), (1542, 1022), (404, 20), (1508, 131), (2211, 241),
(2414, 351), (2218, 461), (1223, 575), (1927, 686), (3531, 799), (2536, 911), (1642, 1023), (504,
21), (1608, 132), (2311, 242), (2514, 352), (2318, 462), (1323, 576), (2027, 687), (832, 800),
(2636, 912), (1742, 1024), (604, 22), (1708, 133), (2411, 243), (2614, 353), (2418, 463), (1423,
577), (2127, 688), (932, 801), (2736, 913), (1842, 1025), (704, 23), (1808, 134), (2511, 244),
(2714, 354), (2518, 464), (1523, 578), (2227, 689), (1032, 802), (2836, 914), (1942, 1026), (804,
24), (1908, 135), (2611, 245), (2814, 355), (2618, 465), (1623, 579), (2327, 690), (1132, 803),
(837, 915), (2042, 1027), (904, 25), (2008, 136), (2711, 246), (2914, 356), (2718, 466), (1723,
580), (2427, 691), (1232, 804), (937, 916), (2142, 1028), (1004, 26), (2108, 137), (2811, 247),
(3014, 357), (2818, 467), (1823, 581), (2527, 692), (1332, 805), (1037, 917), (2242, 1029), (1104,
27), (2208, 138), (2911, 248), (3114, 358), (2918, 468), (1923, 582), (2627, 693), (1432, 806),
(1137, 918), (2342, 1030), (1204, 28), (2308, 139), (3011, 249), (3214, 359), (3018, 469), (2023,
583), (2727, 694), (1532, 807), (1237, 919), (2442, 1031), (1304, 29), (2408, 140), (3111, 250),
(3314, 360), (3118, 470), (2123, 584), (2827, 695), (1632, 808), (1337, 920), (2542, 1032), (1404,
30), (2508, 141), (3211, 251), (3414, 361), (3218, 471), (2223, 585), (2927, 696), (1732, 809),
(1437, 921), (1143, 1033), (1504, 31), (2608, 142), (3311, 252), (3514, 362), (3318, 472), (2323,
586), (3727, 697), (1832, 810), (1537, 922), (1243, 1034), (1604, 32), (2708, 143), (3411, 253),
(3614, 363), (3418, 473), (2423, 587), (3827, 698), (1932, 811), (1637, 923), (1343, 1035), (1704,
33), (2808, 144), (3511, 254), (3714, 364), (919, 474), (2523, 588), (3927, 699), (2032, 812),
(1737, 924), (1443, 1036), (1804, 34), (2908, 145), (3611, 255), (3814, 365), (1019, 475), (2623,
589), (4027, 700), (2132, 813), (1837, 925), (1543, 1037), (1904, 35), (3008, 146), (3711, 256),
(3914, 366), (1119, 476), (2723, 590), (828, 701), (2232, 814), (1937, 926), (1643, 1038), (2004,
36), (3108, 147), (3811, 257), (1115, 367), (1219, 477), (2823, 591), (928, 702), (2332, 815),
(2037, 927), (1743, 1039), (2104, 37), (3208, 148), (3911, 258), (1215, 368), (1319, 478), (2923,
592), (1028, 703), (2432, 816), (2137, 928), (1843, 1040), (2204, 38), (3308, 149), (4011, 259),
(1315, 369), (1419, 479), (3023, 593), (1128, 704), (2532, 817), (2237, 929), (1943, 1041), (2304,
39), (3408, 150), (312, 260), (1415, 370), (1519, 480), (3123, 594), (1228, 705), (2632, 818),
(2337, 930), (2043, 1042), (2404, 40), (309, 151), (412, 261), (1515, 371), (1619, 481), (924,
595), (1328, 706), (2732, 819), (2437, 931), (2143, 1043), (2504, 41), (409, 152), (512, 262),
(1615, 372), (1719, 482), (1024, 596), (1428, 707), (2832, 820), (2537, 932), (2243, 1044), (305,
43), (509, 153), (612, 263), (1715, 373), (1819, 483), (1124, 597), (1528, 708), (2932, 821),
(2637, 933), (2343, 1045), (405, 44), (609, 154), (712, 264), (1815, 374), (1919, 484), (1224,
598), (1628, 709), (3032, 822), (2737, 934), (2443, 1046), (505, 45), (709, 155), (812, 265),
(1915, 375), (2019, 485), (1324, 599), (1728, 710), (3132, 823), (2837, 935), (1144, 1047), (605,
46), (809, 156), (912, 266), (2015, 376), (2119, 486), (1424, 600), (1828, 711), (3432, 824),
(838, 936), (1244, 1048), (705, 47), (909, 157), (1012, 267), (2115, 377), (2219, 487), (1524,
601), (1928, 712), (3532, 825), (938, 937), (1344, 1049), (805, 48), (1009, 158), (1112, 268),
(2215, 378), (2319, 488), (1624, 602), (2028, 713), (833, 826), (1038, 938), (1444, 1050), (905,
49), (1109, 159), (1212, 269), (2315, 379), (2419, 489), (1724, 603), (2128, 714), (933, 827),
(1138, 939), (1544, 1051), (1005, 50), (1209, 160), (1312, 270), (2415, 380), (2519, 490), (1824,
604), (2228, 715), (1033, 828), (1238, 940), (1644, 1052), (1105, 51), (1309, 161), (1412, 271),
(2515, 381), (2619, 491), (1924, 605), (2328, 716), (1133, 829), (1338, 941), (1744, 1053), (1205,
52), (1409, 162), (1512, 272), (2615, 382), (2719, 492), (2024, 606), (2428, 717), (1233, 830),
(1438, 942), (1844, 1054), (1305, 53), (1509, 163), (1612, 273), (2715, 383), (2819, 493), (2124,
607), (2528, 718), (1333, 831), (1538, 943), (1944, 1055), (1405, 54), (1609, 164), (1712, 274),
(2815, 384), (2919, 494), (2224, 608), (2628, 719), (1433, 832), (1638, 944), (2044, 1056), (1505,
55), (1709, 165), (1812, 275), (2915, 385), (3019, 495), (2324, 609), (2728, 720), (1533, 833),
(1738, 945), (2144, 1057), (1605, 56), (1809, 166), (1912, 276), (3015, 386), (3119, 496), (2424,
610), (2828, 721), (1633, 834), (1838, 946), (2244, 1058), (1705, 57), (1909, 167), (2012, 277),
(3115, 387), (3219, 497), (2524, 611), (2928, 722), (1733, 835), (1938, 947), (2344, 1059), (1805,
58), (2009, 168), (2112, 278), (3215, 388), (3319, 498), (2624, 612), (3828, 723), (1833, 836),
(2038, 948), (2444, 1060), (1905, 59), (2109, 169), (2212, 279), (3315, 389), (1020, 500), (2724,
613), (3928, 724), (1933, 837), (2138, 949), (1145, 1061), (2005, 60), (2209, 170), (2312, 280),
(3415, 390), (1120, 501), (2824, 614), (4028, 725), (2033, 838), (2238, 950), (1245, 1062), (2105,
61), (2309, 171), (2412, 281), (3515, 391), (1220, 502), (2924, 615), (829, 726), (2133, 839),
(2338, 951), (1345, 1063), (2205, 62), (2409, 172), (2512, 282), (3615, 392), (1320, 503), (3024,
616), (929, 727), (2233, 840), (2438, 952), (1445, 1064), (2305, 63), (2509, 173), (2612, 283),
(3715, 393), (1420, 504), (3124, 617), (1029, 728), (2333, 841), (2538, 953), (1545, 1065), (2405,
64), (2609, 174), (2712, 284), (3815, 394), (1520, 505), (4224, 618), (1129, 729), (2433, 842),
(2638, 954), (1645, 1066), (2505, 65), (2709, 175), (2812, 285), (1116, 395), (1620, 506), (4324,
619), (1229, 730), (2533, 843), (2738, 955), (1745, 1067), (2605, 66), (2809, 176), (2912, 286),
(1216, 396), (1720, 507), (925, 620), (1329, 731), (2633, 844), (2838, 956), (1146, 1068), (206,
67), (2909, 177), (3012, 287), (1316, 397), (1820, 508), (1025, 621), (1429, 732), (2733, 845),
(839, 958), (1246, 1069), (306, 68), (3009, 178), (3112, 288), (1416, 398), (1920, 509), (1125,
622), (1529, 733), (2833, 846), (939, 959), (1346, 1070), (406, 69), (3109, 179), (3212, 289),
(1516, 399), (2020, 510), (1225, 623), (1629, 734), (2933, 847), (1039, 960), (1446, 1071), (506,
70), (3209, 180), (3312, 290), (1616, 400), (2120, 511), (1325, 624), (1729, 735), (3033, 848),
(1139, 961), (1546, 1072), (606, 71), (3309, 181), (3412, 291), (1716, 401), (2220, 512), (1425,
625), (1829, 736), (834, 851), (1239, 962), (1247, 1073), (706, 72), (3409, 182), (3512, 292),
(1816, 402), (2320, 513), (1525, 626), (1929, 737), (934, 852), (1339, 963), (1347, 1074), (806,
73), (3509, 183), (3612, 293), (1916, 403), (2420, 514), (1625, 627), (2029, 738), (1034, 853),
(1439, 964), (1447, 1075), (906, 74), (310, 184), (3712, 294), (2016, 404), (2520, 515), (1725,
628), (2129, 739), (1134, 854), (1539, 965), (1248, 1076), (1006, 75), (410, 185), (3812, 295),
(2116, 405), (2620, 516), (1825, 629), (2229, 740), (1234, 855), (1639, 966), (1348, 1077), (1106,
76), (510, 186), (3912, 296), (2216, 406), (2720, 517), (1925, 630), (2329, 741), (1334, 856),
(1739, 967), (1448, 1078), (1206, 77), (610, 187), (4012, 297), (2316, 407), (2820, 518), (2025,
631), (2429, 742), (1434, 857), (1839, 968), (1306, 78), (710, 188), (313, 298), (2416, 408),
(2920, 519), (2125, 632), (2529, 743), (1534, 858), (1939, 969), (1406, 79), (810, 189), (413,
299), (2516, 409), (3020, 520), (2225, 633), (2629, 744), (1634, 859), (2039, 970), (1506, 80),
(910, 190), (513, 300), (2616, 410), (3120, 521), (2325, 634), (2729, 745), (1734, 860), (2139,
971), (1606, 81), (1010, 191), (613, 301), (2716, 411), (3220, 522), (2425, 635), (2829, 746),
(1834, 861), (2239, 972), (1706, 82), (1110, 192), (713, 302), (2816, 412), (3320, 523), (2525,
636), (2929, 747), (1934, 862), (2339, 973), (1806, 83), (1210, 193), (813, 303), (2916, 413),
(1021, 525), (2625, 637), (3929, 748), (2034, 863), (2439, 974), (1906, 84), (1310, 194), (913,
304), (3016, 414), (1121, 526), (2725, 638), (930, 750), (2134, 864), (2539, 975), (2006, 85),
(1410, 195), (1013, 305), (3116, 415), (1221, 527), (2825, 639), (1030, 751), (2234, 865), (2639,
976), (2106, 86), (1510, 196), (1113, 306), (3216, 416), (1321, 528), (2925, 640), (1130, 752),
(2334, 866), (2739, 977), (2206, 87), (1610, 197), (1213, 307), (3316, 417), (1421, 529), (3025,
641), (1230, 753), (2434, 867), (2839, 978), (2306, 88), (1710, 198), (1313, 308), (3416, 418),
(1521, 530), (3225, 642), (1330, 754), (2534, 868), (840, 980), (2406, 89), (1810, 199), (1413,
309), (3516, 419), (1621, 531), (3925, 644), (1430, 755), (2634, 869), (940, 981), (2506, 90),
(1910, 200), (1513, 310), (3616, 420), (1721, 532), (4025, 645), (1530, 756), (2734, 870), (1040,
982), (2606, 91), (2010, 201), (1613, 311), (3716, 421), (1821, 533), (4225, 646), (1630, 757),
(2834, 871), (1140, 983), (207, 92), (2110, 202), (1713, 312), (1017, 422), (1921, 534), (4325,
647), (1730, 758), (2934, 872), (1240, 984), (307, 93), (2210, 203), (1813, 313), (1117, 423),
(2021, 535), (926, 648), (1830, 759), (835, 873), (1340, 985), (407, 94), (2310, 204), (1913,
314), (1217, 424), (2121, 536), (1026, 649), (1930, 760), (935, 874), (1440, 986), (507, 95),
(2410, 205), (2013, 315), (1317, 425), (2221, 537), (1126, 650), (2030, 761), (1035, 875), (1540,
987), (607, 96), (2510, 206), (2113, 316), (1417, 426), (2321, 538), (1226, 651), (2130, 762),
(1135, 876), (1640, 988), (707, 97), (2610, 207), (2213, 317), (1517, 427), (2421, 539), (1326,
652), (2230, 763), (1235, 877), (1740, 989), (807, 98), (2710, 208), (2313, 318), (1617, 428),
(2521, 540), (1426, 653), (2330, 764), (1335, 878), (1840, 990), (907, 99), (2810, 209), (2413,
319), (1717, 429), (2621, 541), (1526, 654), (2430, 765), (1435, 879), (1940, 991), (1007, 100),
(2910, 210), (2513, 320), (1817, 430), (2721, 542), (1626, 655), (2530, 766), (1535, 880), (2040,
992), (1107, 101), (3010, 211), (2613, 321), (1917, 431), (2821, 543), (1726, 656), (2630, 767),
(1635, 881), (2140, 993), (1207, 102), (3110, 212), (2713, 322), (2017, 432), (2921, 544), (1826,
657), (2730, 768), (1735, 882), (2240, 994), (1307, 103), (3210, 213), (2813, 323), (2117, 433),
(3021, 545), (1926, 658), (2830, 769), (1835, 883), (2340, 995), (1407, 104), (3310, 214), (2913,
324), (2217, 434), (3121, 546), (2026, 659), (2930, 770), (1935, 884), (2440, 996), (1507, 105),
(3410, 215), (3013, 325), (2317, 435), (3221, 547), (2126, 660), (3030, 771), (2035, 885), (2540,
997), (1607, 106), (3510, 216), (3113, 326), (2417, 436), (1022, 550), (2226, 661), (3430, 772),
(2135, 886), (841, 998), (1707, 107), (3610, 217), (3213, 327), (2517, 437), (1122, 551), (2326,
662), (3530, 773), (2235, 887), (941, 999), (1807, 108), (3710, 218), (3313, 328), (2617, 438),
(1222, 552), (2426, 663), (931, 775), (2335, 888), (1041, 1000), (1907, 109), (3810, 219), (3413,
329), (2717, 439), (1322, 553), (2526, 664), (1031, 776), (2435, 889), (1141, 1001), (2007, 110),
(3910, 220), (3513, 330), (2817, 440), (1422, 554), (2626, 665), (1131, 777), (2535, 890), (1241,
1002), (2107, 111), (4010, 221), (3613, 331), (2917, 441), (1522, 555), (2726, 666), (1231, 778),
(2635, 891), (1341, 1003), (2207, 112), (311, 222), (3713, 332), (3017, 442), (1622, 556), (2826,
667), (1331, 779), (2735, 892), (1441, 1004), (2307, 113), (411, 223), (3813, 333), (3117, 443),
(1722, 557), (2926, 668), (1431, 780), (2835, 893), (1541, 1005), (2407, 114), (511, 224), (3913,
334), (3217, 444), (1822, 558), (3026, 669), (1531, 781), (2935, 894), (1641, 1006), (2507, 115),
(611, 225), (4013, 335), (3317, 445), (1922, 559), (3826, 670), (1631, 782), (936, 895), (1741,
1007), (2607, 116), (711, 226), (614, 336), (3417, 446), (2022, 560), (3926, 671), (1731, 783),
(1036, 896), (1841, 1008)]

/-- Python dict lookup on the association list: first (here: unique) key
match wins, a missing key is `none` (the dict access raises `KeyError`). -/
def lookupCcff : ℤ → List (ℤ × ℤ) → Option ℤ
  | _, [] => none
  | k, (a, b) :: rest => if k = a then some b else lookupCcff k rest

/-- Python `str(n)` for an integer: decimal digits, `'-'`-prefixed when
negative. -/
def intRepr (n : ℤ) : List Char :=
  if n < 0 then '-' :: Nat.toDigits 10 n.natAbs else Nat.toDigits 10 n.toNat

/-- Python `"%wd" % n`: right-justified in width `w`, padded with spaces,
never truncated. -/
def fmtD (w : ℕ) (n : ℤ) : List Char :=
  List.replicate (w - (intRepr n).length) ' ' ++ intRepr n

/-- Python `"%0wd" % n`: right-justified in width `w`, zero-padded after the
sign. -/
def fmt0D (w : ℕ) (n : ℤ) : List Char :=
  if n < 0 then
    '-' :: (List.replicate (w - 1 - (Nat.toDigits 10 n.natAbs).length) '0' ++
      Nat.toDigits 10 n.natAbs)
  else
    List.replicate (w - (Nat.toDigits 10 n.toNat).length) '0' ++
      Nat.toDigits 10 n.toNat

/-- Value of a nonempty all-digit character run, `none` otherwise. -/
def digitRunVal (l : List Char) : Option ℕ :=
  if l.isEmpty then none
  else l.foldl (fun acc c =>
    match acc with
    | none => none
    | some a => if c.isDigit then some (10 * a + (c.toNat - 48)) else none)
    (some 0)

/-- Python `int(s)` on a string: strips leading/trailing spaces, accepts an
optional sign followed by a nonempty digit run, and fails (`ValueError`,
modelled as `none`) on anything else — in particular on any interior
space. -/
def pyIntOfStr (s : List Char) : Option ℤ :=
  match ((s.dropWhile (· = ' ')).reverse.dropWhile (· = ' ')).reverse with
  | '-' :: rest => (digitRunVal rest).map (fun n => -(n : ℤ))
  | '+' :: rest => (digitRunVal rest).map (fun n => (n : ℤ))
  | rest => (digitRunVal rest).map (fun n => (n : ℤ))

/-- The Python exceptions `MTN.where` can raise: `ValueError` from `int()`
on a malformed string, `KeyError` (carrying the key) from the dict lookup. -/
inductive PyErr
  | valueError
  | keyError (code : ℤ)
deriving DecidableEq, Repr

/-- The dict returned by `MTN.where`: for each tier the `(code, legacy
sheet)` pair. -/
structure WhereResult where
  mtn50 : ℤ × ℤ
  mtn25 : ℤ × ℤ
  mtn10 : ℤ × ℤ
deriving DecidableEq, Repr

/-- A single grid index of `MTN.where`: `int(offset * k) + 1` with
truncation toward zero. -/
def gridIdx (off : ℚ) (k : ℚ) : ℤ := ratTrunc (off * k) + 1

/-- The six grid indices `MTN.where` computes (mtn.py lines 320-325), as
`((col50, row50), (col25, row25), (col10, row10))`, from the column offset
`lon - origin.lon` and the row offset `origin.lat - lat`. -/
def gridIndices (lon lat : ℚ) : (ℤ × ℤ) × (ℤ × ℤ) × (ℤ × ℤ) :=
  ((gridIdx (lon - origin_lon) 3, gridIdx (origin_lat - lat) 6),
   (gridIdx (lon - origin_lon) 6, gridIdx (origin_lat - lat) 12),
   (gridIdx (lon - origin_lon) 12, gridIdx (origin_lat - lat) 24))

/-- The string/lookup part of `MTN.where` (mtn.py lines 323-331): the MTN50
and MTN25 codes are formatted with `"%2d%2d"` (space-padded), the MTN10 code
with `"%3d%03d"`; the three `int()` conversions run left to right, then the
legacy sheet is looked up in `mtn_from_ccff` using the MTN50 code for all
three tiers. -/
def sheetsFromIndices (ix : (ℤ × ℤ) × (ℤ × ℤ) × (ℤ × ℤ)) :
    Except PyErr WhereResult :=
  match pyIntOfStr (fmtD 2 ix.1.1 ++ fmtD 2 ix.1.2) with
  | none => .error .valueError
  | some m50 =>
    match pyIntOfStr (fmtD 2 ix.2.1.1 ++ fmtD 2 ix.2.1.2) with
    | none => .error .valueError
    | some m25 =>
      match pyIntOfStr (fmtD 3 ix.2.2.1 ++ fmt0D 3 ix.2.2.2) with
      | none => .error .valueError
      | some m10 =>
        match lookupCcff m50 mtn_from_ccff with
        | none => .error (.keyError m50)
        | some sheet => .ok ⟨(m50, sheet), (m25, sheet), (m10, sheet)⟩

/-- `MTN.where` (mtn.py lines 309-331): the full resolver. -/
def whereSheet (lon lat : ℚ) : Except PyErr WhereResult :=
  sheetsFromIndices (gridIndices lon lat)

/-! ### Truncation lemmas -/

lemma ratTrunc_eq_of_nonneg (n : ℤ) (q : ℚ) (hn : 0 ≤ n) (h1 : (n : ℚ) ≤ q)
    (h2 : q < (n : ℚ) + 1) : ratTrunc q = n := by
  have h0 : (0 : ℚ) ≤ q := le_trans (by exact_mod_cast hn) h1
  rw [ratTrunc, if_pos h0]
  exact Int.floor_eq_iff.2 ⟨h1, by exact_mod_cast h2⟩

lemma ratTrunc_eq_of_neg (n : ℤ) (q : ℚ) (hq : q < 0) (h1 : (n : ℚ) - 1 < q)
    (h2 : q ≤ (n : ℚ)) : ratTrunc q = n := by
  rw [ratTrunc, if_neg (not_le.2 hq)]
  exact Int.ceil_eq_iff.2 ⟨by exact_mod_cast h1, h2⟩

/-- Evaluation rule for one grid index: if `n - 1 ≤ off * k < n` with
`1 ≤ n`, then `int(off * k) + 1 = n`. -/
lemma gridIdx_eq (off k : ℚ) (n : ℤ) (hn : 1 ≤ n) (h1 : (n : ℚ) - 1 ≤ off * k)
    (h2 : off * k < (n : ℚ)) : gridIdx off k = n := by
  rw [gridIdx, ratTrunc_eq_of_nonneg (n - 1) _ (by omega)
    (by push_cast; linarith) (by push_cast; linarith)]
  omega

/-! ### Concrete grid-index evaluations -/

/-- Grid indices for the example point of the module's `__main__` block,
`lon = -3.485088888888889`, `lat = 40.37361111111111`. -/
lemma gridIndices_ex : gridIndices (-3.485088888888889) (40.37361111111111) =
    ((20, 22), (39, 44), (77, 88)) := by
  have c3 : gridIdx ((-3.485088888888889 : ℚ) - origin_lon) 3 = 20 :=
    gridIdx_eq _ _ 20 (by norm_num) (by norm_num [origin_lon]) (by norm_num [origin_lon])
  have c6 : gridIdx ((-3.485088888888889 : ℚ) - origin_lon) 6 = 39 :=
    gridIdx_eq _ _ 39 (by norm_num) (by norm_num [origin_lon]) (by norm_num [origin_lon])
  have c12 : gridIdx ((-3.485088888888889 : ℚ) - origin_lon) 12 = 77 :=
    gridIdx_eq _ _ 77 (by norm_num) (by norm_num [origin_lon]) (by norm_num [origin_lon])
  have r6 : gridIdx (origin_lat - (40.37361111111111 : ℚ)) 6 = 22 :=
    gridIdx_eq _ _ 22 (by norm_num) (by norm_num [origin_lat]) (by norm_num [origin_lat])
  have r12 : gridIdx (origin_lat - (40.37361111111111 : ℚ)) 12 = 44 :=
    gridIdx_eq _ _ 44 (by norm_num) (by norm_num [origin_lat]) (by norm_num [origin_lat])
  have r24 : gridIdx (origin_lat - (40.37361111111111 : ℚ)) 24 = 88 :=
    gridIdx_eq _ _ 88 (by norm_num) (by norm_num [origin_lat]) (by norm_num [origin_lat])
  simp only [gridIndices, c3, c6, c12, r6, r12, r24]

/-- A zero offset gives grid index 1 in every tier scale. -/
lemma gridIdx_zero (k : ℚ) : gridIdx 0 k = 1 :=
  gridIdx_eq _ _ 1 (by norm_num) (by norm_num) (by norm_num)

/-- Grid indices for `lon = 0`, `lat = 0` (far outside the table). -/
lemma gridIndices_zero : gridIndices 0 0 = ((30, 265), (60, 529), (119, 1057)) := by
  have c3 : gridIdx ((0 : ℚ) - origin_lon) 3 = 30 :=
    gridIdx_eq _ _ 30 (by norm_num) (by norm_num [origin_lon]) (by norm_num [origin_lon])
  have c6 : gridIdx ((0 : ℚ) - origin_lon) 6 = 60 :=
    gridIdx_eq _ _ 60 (by norm_num) (by norm_num [origin_lon]) (by norm_num [origin_lon])
  have c12 : gridIdx ((0 : ℚ) - origin_lon) 12 = 119 :=
    gridIdx_eq _ _ 119 (by norm_num) (by norm_num [origin_lon]) (by norm_num [origin_lon])
  have r6 : gridIdx (origin_lat - (0 : ℚ)) 6 = 265 :=
    gridIdx_eq _ _ 265 (by norm_num) (by norm_num [origin_lat]) (by norm_num [origin_lat])
  have r12 : gridIdx (origin_lat - (0 : ℚ)) 12 = 529 :=
    gridIdx_eq _ _ 529 (by norm_num) (by norm_num [origin_lat]) (by norm_num [origin_lat])
  have r24 : gridIdx (origin_lat - (0 : ℚ)) 24 = 1057 :=
    gridIdx_eq _ _ 1057 (by norm_num) (by norm_num [origin_lat]) (by norm_num [origin_lat])
  simp only [gridIndices, c3, c6, c12, r6, r12, r24]

/-- Grid indices for `lon = -8.054166666666666`, `lat = 43.75`, a point in
MTN50 column 6, row 2 (offsets exactly 1.8 and 0.25 degrees). -/
lemma gridIndices_row2 : gridIndices (-8.054166666666666) (43.75) =
    ((6, 2), (11, 4), (22, 7)) := by
  have c3 : gridIdx ((-8.054166666666666 : ℚ) - origin_lon) 3 = 6 :=
    gridIdx_eq _ _ 6 (by norm_num) (by norm_num [origin_lon]) (by norm_num [origin_lon])
  have c6 : gridIdx ((-8.054166666666666 : ℚ) - origin_lon) 6 = 11 :=
    gridIdx_eq _ _ 11 (by norm_num) (by norm_num [origin_lon]) (by norm_num [origin_lon])
  have c12 : gridIdx ((-8.054166666666666 : ℚ) - origin_lon) 12 = 22 :=
    gridIdx_eq _ _ 22 (by norm_num) (by norm_num [origin_lon]) (by norm_num [origin_lon])
  have r6 : gridIdx (origin_lat - (43.75 : ℚ)) 6 = 2 :=
    gridIdx_eq _ _ 2 (by norm_num) (by norm_num [origin_lat]) (by norm_num [origin_lat])
  have r12 : gridIdx (origin_lat - (43.75 : ℚ)) 12 = 4 :=
    gridIdx_eq _ _ 4 (by norm_num) (by norm_num [origin_lat]) (by norm_num [origin_lat])
  have r24 : gridIdx (origin_lat - (43.75 : ℚ)) 24 = 7 :=
    gridIdx_eq _ _ 7 (by norm_num) (by norm_num [origin_lat]) (by norm_num [origin_lat])
  simp only [gridIndices, c3, c6, c12, r6, r12, r24]

/-! ### Concrete resolver evaluations -/

/-- Full resolver run on the module's example point: MTN50 code 2022,
legacy sheet 560, reported for all three tiers. -/
lemma whereSheet_ex : whereSheet (-3.485088888888889) (40.37361111111111) =
    .ok ⟨(2022, 560), (3944, 560), (77088, 560)⟩ := by
  unfold whereSheet
  rw [gridIndices_ex]
  rfl

/-- Full resolver run on `lon = 0`, `lat = 0`: the MTN50 code 30265 is not
in the table, so the lookup raises `KeyError(30265)`. -/
lemma whereSheet_zero : whereSheet 0 0 = .error (.keyError 30265) := by
  unfold whereSheet
  rw [gridIndices_zero]
  rfl

/-- Full resolver run on the column-6 row-2 point: `"%2d%2d" % (6, 2)`
yields `" 6 2"`, whose interior space makes `int()` raise `ValueError`. -/
lemma whereSheet_row2 : whereSheet (-8.054166666666666) (43.75) =
    .error .valueError := by
  unfold whereSheet
  rw [gridIndices_row2]
  rfl

/-! ### Lemmas about the DMS conversions -/

lemma ratTrunc_zero : ratTrunc 0 = 0 := by
  rw [ratTrunc, if_pos le_rfl]; exact Int.floor_zero

/-- `dd_to_dms` on exactly 0 returns the negative direction: the sign is
`1 if deg > 0 else -1`, and `0 > 0` is false. -/
lemma dd_to_dms_zero (mode : String) :
    dd_to_dms 0 mode = ⟨0, 0, 0, if pyLower mode = "lat" then 'S' else 'W'⟩ := by
  simp [dd_to_dms, ratTrunc_zero]

/-- Converting back a positive canonical angle `d + m/60 + s/3600` (with
`m < 60`, `0 ≤ s < 60`) recovers the components exactly, with the positive
direction letter of the mode. -/
lemma round_core_pos (d m : ℕ) (s : ℚ) (mode : String) (hm : m < 60)
    (hs0 : 0 ≤ s) (hs : s < 60) (hpos : 0 < (d : ℚ) + m / 60 + s / (60 * 60)) :
    dd_to_dms ((d : ℚ) + m / 60 + s / (60 * 60)) mode =
      ⟨d, m, s, if pyLower mode = "lat" then 'N' else 'E'⟩ := by
  have hm59 : (m : ℚ) ≤ 59 := by exact_mod_cast Nat.lt_succ_iff.mp hm
  have hf0 : (0 : ℚ) ≤ (m : ℚ) / 60 + s / (60 * 60) := by positivity
  have hf1 : (m : ℚ) / 60 + s / (60 * 60) < 1 := by linarith
  have htr : ratTrunc ((d : ℚ) + m / 60 + s / (60 * 60)) = (d : ℤ) := by
    apply ratTrunc_eq_of_nonneg _ _ (Int.natCast_nonneg d)
    · push_cast; linarith
    · push_cast; linarith
  have hmd : |(d : ℚ) + m / 60 + s / (60 * 60) - (((d : ℤ) : ℚ))| * 60 =
      (m : ℚ) + s / 60 := by
    push_cast
    rw [show (d : ℚ) + m / 60 + s / (60 * 60) - (d : ℚ) = m / 60 + s / (60 * 60) by ring,
      abs_of_nonneg hf0]
    ring
  have htr2 : ratTrunc ((m : ℚ) + s / 60) = (m : ℤ) := by
    apply ratTrunc_eq_of_nonneg _ _ (Int.natCast_nonneg m)
    · push_cast; linarith
    · push_cast; linarith
  simp only [dd_to_dms, htr, hmd, htr2, if_pos hpos]
  have h1 : |(d : ℤ)| = (d : ℤ) := abs_of_nonneg (Int.natCast_nonneg d)
  have h3 : ((m : ℚ) + s / 60 - ((m : ℤ) : ℚ)) * 60 = s := by push_cast; ring
  rw [h1, h3]
  simp

/-- Converting back a negative canonical angle `-(d + m/60 + s/3600)` (with
`m < 60`, `0 ≤ s < 60`, nonzero total) recovers the components exactly, with
the negative direction letter of the mode. -/
lemma round_core_neg (d m : ℕ) (s : ℚ) (mode : String) (hm : m < 60)
    (hs0 : 0 ≤ s) (hs : s < 60) (hpos : 0 < (d : ℚ) + m / 60 + s / (60 * 60)) :
    dd_to_dms (-((d : ℚ) + m / 60 + s / (60 * 60))) mode =
      ⟨d, m, s, if pyLower mode = "lat" then 'S' else 'W'⟩ := by
  have hm59 : (m : ℚ) ≤ 59 := by exact_mod_cast Nat.lt_succ_iff.mp hm
  have hf0 : (0 : ℚ) ≤ (m : ℚ) / 60 + s / (60 * 60) := by positivity
  have hf1 : (m : ℚ) / 60 + s / (60 * 60) < 1 := by linarith
  have htr : ratTrunc (-((d : ℚ) + m / 60 + s / (60 * 60))) = -(d : ℤ) := by
    apply ratTrunc_eq_of_neg _ _ (by linarith)
    · push_cast; linarith
    · push_cast; linarith
  have hmd : |(-((d : ℚ) + m / 60 + s / (60 * 60))) - ((-(d : ℤ) : ℤ) : ℚ)| * 60 =
      (m : ℚ) + s / 60 := by
    push_cast
    rw [show -((d : ℚ) + m / 60 + s / (60 * 60)) - (-(d : ℚ)) =
      -(m / 60 + s / (60 * 60)) by ring, abs_neg, abs_of_nonneg hf0]
    ring
  have htr2 : ratTrunc ((m : ℚ) + s / 60) = (m : ℤ) := by
    apply ratTrunc_eq_of_nonneg _ _ (Int.natCast_nonneg m)
    · push_cast; linarith
    · push_cast; linarith
  have hneg : ¬ ((-((d : ℚ) + m / 60 + s / (60 * 60))) > 0) := by linarith
  simp only [dd_to_dms, htr, hmd, htr2, if_neg hneg]
  have h1 : |(-(d : ℤ))| = (d : ℤ) := by simp
  have h3 : ((m : ℚ) + s / 60 - ((m : ℤ) : ℚ)) * 60 = s := by push_cast; ring
  rw [h1, h3]
  simp

/-! ### Claim theorems -/

/-- C1 (counterexample): resolving `lon = -3.485088888888889`,
`lat = 40.37361111111111` does NOT give 50k code 1922 / legacy sheet 559:
the resolver returns 50k code 2022 with legacy sheet 560. -/
theorem C1_counterexample :
    whereSheet (-3.485088888888889) (40.37361111111111) =
      Except.ok ⟨(2022, 560), (3944, 560), (77088, 560)⟩ ∧
    (2022 : ℤ) ≠ 1922 ∧ (560 : ℤ) ≠ 559 :=
  ⟨whereSheet_ex, by decide, by decide⟩

/-- C1 (amended): resolving `lon = -3.485088888888889`,
`lat = 40.37361111111111` gives 50k code 2022 mapping to legacy sheet 560,
and the 25k and 10k tier results (codes 3944 and 77088) report that same
legacy sheet number 560. -/
theorem C1_resolver_example :
    ∃ r : WhereResult,
      whereSheet (-3.485088888888889) (40.37361111111111) = Except.ok r ∧
      r.mtn50 = (2022, 560) ∧ r.mtn25 = (3944, 560) ∧ r.mtn10 = (77088, 560) ∧
      r.mtn25.2 = r.mtn50.2 ∧ r.mtn10.2 = r.mtn50.2 :=
  ⟨⟨(2022, 560), (3944, 560), (77088, 560)⟩,
    whereSheet_ex, rfl, rfl, rfl, rfl, rfl⟩

/-- C2 (counterexample): `dd_to_dms 0` in latitude mode returns direction
`'S'`, not the positive `'N'` the claim requires for input 0 (the code
computes `sign = 1 if deg > 0 else -1`, so 0 gets sign -1). -/
theorem C2_counterexample :
    dd_to_dms 0 "lat" = ⟨0, 0, 0, 'S'⟩ ∧ ('S' : Char) ≠ 'N' :=
  ⟨by rw [dd_to_dms_zero]; simp [show pyLower "lat" = "lat" by decide],
   by decide⟩

/-- C2 (amended): in `dd_to_dms` the sign is +1 when the input is strictly
greater than 0 and -1 otherwise; in particular for input exactly 0 the
direction returned is the negative one (`'S'` in latitude mode, `'W'` in
longitude mode). -/
theorem C2_sign_of_dd_to_dms :
    (∀ q : ℚ,
      (dd_to_dms q "lat").dir = (if 0 < q then 'N' else 'S') ∧
      (dd_to_dms q "lon").dir = (if 0 < q then 'E' else 'W')) ∧
    dd_to_dms 0 "lat" = ⟨0, 0, 0, 'S'⟩ ∧ dd_to_dms 0 "lon" = ⟨0, 0, 0, 'W'⟩ := by
  refine ⟨fun q => ?_, ?_, ?_⟩
  · by_cases h : 0 < q <;>
      simp [dd_to_dms, h, show pyLower "lat" = "lat" by decide,
        show pyLower "lon" = "lon" by decide]
  · rw [dd_to_dms_zero]; simp [show pyLower "lat" = "lat" by decide]
  · rw [dd_to_dms_zero]; simp [show pyLower "lon" = "lon" by decide]

/-- C3 (code bug): for a point whose MTN50 row index has a single digit
(here column 6, row 2), the resolver raises `ValueError` instead of
producing the code `col * 100 + row = 602` required by the claim, by the
formula in the module's own header comment, and by the table itself (602 is
a key of `mtn_from_ccff`, so `where` can never return the sheet mapped to
it): `"%2d%2d" % (6, 2)` space-pads to `" 6 2"`, which `int()` rejects. -/
theorem C3_single_digit_row_crash :
    gridIndices (-8.054166666666666) (43.75) = ((6, 2), (11, 4), (22, 7)) ∧
    whereSheet (-8.054166666666666) (43.75) = Except.error PyErr.valueError ∧
    lookupCcff 602 mtn_from_ccff = some 1 ∧
    pyIntOfStr (fmtD 2 6 ++ fmtD 2 2) = none :=
  ⟨gridIndices_row2, whereSheet_row2, rfl, rfl⟩

/-- C4: a point exactly at the grid origin (both offsets 0) gets column 1
and row 1 in every tier — truncation toward zero of 0 is 0, and the code
adds 1 — never 0 or a negative index. -/
theorem C4_origin_indices :
    gridIndices origin_lon origin_lat = ((1, 1), (1, 1), (1, 1)) ∧
    ∀ k : ℚ, gridIdx 0 k = 1 := by
  constructor
  · simp only [gridIndices, sub_self, gridIdx_zero]
  · exact gridIdx_zero

/-- C5: whenever the resolver succeeds, the legacy sheet number of every
tier is the table lookup of the 50k code, so the 25k and 10k results carry
the identical legacy sheet number. -/
theorem C5_same_legacy_sheet (lon lat : ℚ) (r : WhereResult)
    (h : whereSheet lon lat = Except.ok r) :
    lookupCcff r.mtn50.1 mtn_from_ccff = some r.mtn50.2 ∧
    r.mtn25.2 = r.mtn50.2 ∧ r.mtn10.2 = r.mtn50.2 := by
  unfold whereSheet sheetsFromIndices at h
  split at h
  · exact absurd h (by simp)
  · split at h
    · exact absurd h (by simp)
    · split at h
      · exact absurd h (by simp)
      · split at h
        · exact absurd h (by simp)
        · rename_i m50 hm50 m25 hm25 m10 hm10 sheet hsheet
          rw [Except.ok.injEq] at h
          subst h
          exact ⟨hsheet, rfl, rfl⟩

/-- C5 (witness): the resolver succeeds on the module's example point and
the three tiers indeed report the same legacy sheet number 560, which is
the table entry of the 50k code 2022. -/
theorem C5_witness :
    whereSheet (-3.485088888888889) (40.37361111111111) =
      Except.ok ⟨(2022, 560), (3944, 560), (77088, 560)⟩ ∧
    (lookupCcff 2022 mtn_from_ccff = some 560 ∧
      (560 : ℤ) = 560 ∧ (560 : ℤ) = 560) :=
  ⟨whereSheet_ex, C5_same_legacy_sheet _ _ _ whereSheet_ex⟩

/-- C6: a `KeyError` from the resolver always carries a 50k code that has
no entry in the static table (never a default), and resolving
`lon = 0`, `lat = 0` raises exactly `KeyError(30265)`. -/
theorem C6_unknown_code :
    (∀ lon lat : ℚ, ∀ c : ℤ,
      whereSheet lon lat = Except.error (PyErr.keyError c) →
      lookupCcff c mtn_from_ccff = none) ∧
    whereSheet 0 0 = Except.error (PyErr.keyError 30265) := by
  refine ⟨fun lon lat c h => ?_, whereSheet_zero⟩
  unfold whereSheet sheetsFromIndices at h
  split at h
  · exact absurd h (by simp)
  · split at h
    · exact absurd h (by simp)
    · split at h
      · exact absurd h (by simp)
      · split at h
        · rename_i m50 hm50 m25 hm25 m10 hm10 hnone
          rw [Except.error.injEq, PyErr.keyError.injEq] at h
          subst h
          exact hnone
        · exact absurd h (by simp)

/-- C6 (witness): at `lon = 0`, `lat = 0` the resolver raises
`KeyError(30265)`, and 30265 indeed has no entry in the table. -/
theorem C6_witness :
    whereSheet 0 0 = Except.error (PyErr.keyError 30265) ∧
    lookupCcff 30265 mtn_from_ccff = none :=
  ⟨whereSheet_zero, C6_unknown_code.1 0 0 30265 whereSheet_zero⟩

/-- C7: `dms_to_dd` returns `deg + min/60 + sec/3600` negated exactly when
the direction is `'S'` or `'W'`, for every input with no bounds validation;
in particular `dms_to_dd 9 51 15 'W'` is `-9.854166666666666` within 1e-9
and `dms_to_dd 44 0 0 'N'` is exactly 44. -/
theorem C7_dms_to_dd_formula :
    (∀ d m s : ℚ, ∀ dir : Char,
      dms_to_dd d m s dir =
        (d + m / 60 + s / 3600) * (if dir = 'S' ∨ dir = 'W' then -1 else 1)) ∧
    |dms_to_dd 9 51 15 'W' - (-9.854166666666666)| < 1 / 10 ^ 9 ∧
    dms_to_dd 44 0 0 'N' = 44 := by
  refine ⟨fun d m s dir => ?_, ?_, ?_⟩
  · rw [dms_to_dd]
    norm_num [or_comm]
  · rw [dms_to_dd, if_pos (Or.inl rfl), abs_lt]
    norm_num
  · rw [dms_to_dd, if_neg (by decide)]
    norm_num

/-- C8: round-trip on canonical DMS angles: for `m < 60`, `0 ≤ s < 60`,
a direction letter matching the mode, and a nonzero total angle, converting
to decimal degrees and back reproduces degrees, minutes and direction
exactly, and seconds within 0.01 (here: exactly, in rational arithmetic). -/
theorem C8_round_trip (d m : ℕ) (s : ℚ) (dir : Char) (mode : String)
    (hm : m < 60) (hs0 : 0 ≤ s) (hs : s < 60)
    (hmode : (mode = "lat" ∧ (dir = 'N' ∨ dir = 'S')) ∨
             (mode = "lon" ∧ (dir = 'E' ∨ dir = 'W')))
    (hpos : 0 < (d : ℚ) + m / 60 + s / (60 * 60)) :
    (dd_to_dms (dms_to_dd d m s dir) mode).deg = (d : ℤ) ∧
    (dd_to_dms (dms_to_dd d m s dir) mode).min = (m : ℤ) ∧
    |(dd_to_dms (dms_to_dd d m s dir) mode).sec - s| ≤ 1 / 100 ∧
    (dd_to_dms (dms_to_dd d m s dir) mode).dir = dir := by
  rcases hmode with ⟨hmo, hd | hd⟩ | ⟨hmo, hd | hd⟩ <;> subst hmo <;> subst hd
  · have hv : dms_to_dd d m s 'N' = (d : ℚ) + m / 60 + s / (60 * 60) := by
      rw [dms_to_dd, if_neg (by decide)]; ring
    rw [hv, round_core_pos d m s "lat" hm hs0 hs hpos]
    simp [show pyLower "lat" = "lat" by decide]
  · have hv : dms_to_dd d m s 'S' = -((d : ℚ) + m / 60 + s / (60 * 60)) := by
      rw [dms_to_dd, if_pos (Or.inr rfl)]; ring
    rw [hv, round_core_neg d m s "lat" hm hs0 hs hpos]
    simp [show pyLower "lat" = "lat" by decide]
  · have hv : dms_to_dd d m s 'E' = (d : ℚ) + m / 60 + s / (60 * 60) := by
      rw [dms_to_dd, if_neg (by decide)]; ring
    rw [hv, round_core_pos d m s "lon" hm hs0 hs hpos]
    simp [show pyLower "lon" = "lon" by decide]
  · have hv : dms_to_dd d m s 'W' = -((d : ℚ) + m / 60 + s / (60 * 60)) := by
      rw [dms_to_dd, if_pos (Or.inl rfl)]; ring
    rw [hv, round_core_neg d m s "lon" hm hs0 hs hpos]
    simp [show pyLower "lon" = "lon" by decide]

/-- C8 (witness): the round-trip at 9° 51' 15" W in longitude mode. -/
theorem C8_witness :
    ((51 : ℕ) < 60 ∧ (0 : ℚ) ≤ 15 ∧ (15 : ℚ) < 60 ∧
      0 < (9 : ℚ) + (51 : ℕ) / 60 + (15 : ℚ) / (60 * 60)) ∧
    ((dd_to_dms (dms_to_dd 9 51 15 'W') "lon").deg = (9 : ℤ) ∧
     (dd_to_dms (dms_to_dd 9 51 15 'W') "lon").min = (51 : ℤ) ∧
     |(dd_to_dms (dms_to_dd 9 51 15 'W') "lon").sec - 15| ≤ 1 / 100 ∧
     (dd_to_dms (dms_to_dd 9 51 15 'W') "lon").dir = 'W') := by
  constructor
  · norm_num
  · have h := C8_round_trip 9 51 15 'W' "lon" (by norm_num) (by norm_num)
      (by norm_num) (Or.inr ⟨rfl, Or.inr rfl⟩) (by norm_num)
    push_cast at h ⊢
    exact h

/-- C9: `dms_to_dd` accepts any direction letter: anything other than `'W'`
and `'S'` yields the positive sum with no error, and since the direction
parameter defaults to `'W'`, calling it with only a positive degree value
returns the negated value. -/
theorem C9_direction_unvalidated :
    (∀ d m s : ℚ, ∀ dir : Char, dir ≠ 'W' → dir ≠ 'S' →
      dms_to_dd d m s dir = d + m / 60 + s / (60 * 60)) ∧
    (∀ d : ℚ, 0 < d → dms_to_dd d = -d) := by
  constructor
  · intro d m s dir hW hS
    rw [dms_to_dd, if_neg (not_or.2 ⟨hW, hS⟩)]
    ring
  · intro d hd
    rw [dms_to_dd, if_pos (Or.inl rfl)]
    ring

/-- C9 (witness): direction `'X'` is accepted and gives the positive sum,
and `dms_to_dd 7` (all defaults) returns -7. -/
theorem C9_witness :
    (('X' : Char) ≠ 'W' ∧ ('X' : Char) ≠ 'S' ∧
      dms_to_dd 9 51 15 'X' = 9 + (51 : ℚ) / 60 + 15 / (60 * 60)) ∧
    ((0 : ℚ) < 7 ∧ dms_to_dd 7 = -7) :=
  ⟨⟨by decide, by decide,
     C9_direction_unvalidated.1 9 51 15 'X' (by decide) (by decide)⟩,
   ⟨by norm_num, C9_direction_unvalidated.2 7 (by norm_num)⟩⟩

/-- C10: every longitude whose offset from the origin longitude lies in the
open interval (-1/3, 1/3) gets 50k column index 1: truncation toward zero
sends the whole interval (-1, 1) of scaled offsets to 0, so points strictly
west of the origin share the column with points at or east of it. -/
theorem C10_column_collapse (lon lat : ℚ)
    (h1 : -(1 / 3) < lon - origin_lon) (h2 : lon - origin_lon < 1 / 3) :
    (gridIndices lon lat).1.1 = 1 := by
  show gridIdx (lon - origin_lon) 3 = 1
  rw [gridIdx]
  by_cases h : 0 ≤ (lon - origin_lon) * 3
  · rw [ratTrunc_eq_of_nonneg 0 _ le_rfl (by exact_mod_cast h) (by push_cast; linarith)]
    norm_num
  · rw [ratTrunc_eq_of_neg 0 _ (by linarith [not_le.1 h]) (by push_cast; linarith)
      (by push_cast; linarith [not_le.1 h])]
    norm_num

/-- C10 (witness): a point a quarter degree strictly west of the origin
longitude still gets 50k column index 1. -/
theorem C10_witness :
    (-(1 / 3) < (origin_lon - 1 / 4) - origin_lon ∧
      (origin_lon - 1 / 4) - origin_lon < 1 / 3) ∧
    (gridIndices (origin_lon - 1 / 4) 40).1.1 = 1 := by
  refine ⟨⟨by norm_num, by norm_num⟩, C10_column_collapse _ 40 (by norm_num) (by norm_num)⟩
